import Mathlib

/-!
Verification of the MQTT backend-consumer ingestion pipeline
(`MQTT_APP/mqtt_backend_consumer.py`, class `MQTTBackendConsumer`).

The embedding models the message-handling path:

* `on_message` (source lines 65-79): increments `message_count`, parses the
  raw payload with `json.loads`, logs, and calls `process_message_sync`;
  it catches `json.JSONDecodeError` and every other `Exception`.
* `process_message_sync` (93-103): calls `store_timeseries_data` then
  `update_device_metadata`.
* `store_timeseries_data` (105-144): builds one point per `sensors` entry
  (measurement `sensor_data`) and one per `status` entry (measurement
  `device_status`), coercing each value with `float(...)`, then performs a
  single batch `write_api.write`; the whole body is wrapped in one
  `try/except` that logs and returns.
* `update_device_metadata` (146-169): builds a metadata document and issues
  one `update_one({'device_id': ...}, {'$set': ...}, upsert=True)`; also
  wrapped in one catch-all `try/except`.

Library boundaries are modelled at their contracts: the result of
`json.loads` is an input of type `Option JsonValue` (`none` meaning the
parser raised), the InfluxDB write and the MongoDB upsert are stateful
operations that may raise, controlled by a `SinkBehavior` parameter, and
the two calls to `datetime.utcnow()` are a clock parameter `now`.
-/

/-- A JSON value as produced by Python `json.loads`: objects are Python
dicts, modelled as insertion-ordered association lists with unique keys. -/
inductive JsonValue where
  | null
  | bool (b : Bool)
  | num (q : Rat)
  | str (s : String)
  | arr (xs : List JsonValue)
  | obj (fields : List (String × JsonValue))

mutual

/-- Structural (Boolean) equality of JSON values, used to model value
equality in the MongoDB filter `{'device_id': device_id}`. -/
def JsonValue.beq : JsonValue → JsonValue → Bool
  | .null, .null => true
  | .bool a, .bool b => a == b
  | .num a, .num b => a == b
  | .str a, .str b => a == b
  | .arr a, .arr b => jsonListBeq a b
  | .obj a, .obj b => jsonFieldsBeq a b
  | _, _ => false

/-- Elementwise equality of JSON arrays. -/
def jsonListBeq : List JsonValue → List JsonValue → Bool
  | [], [] => true
  | a :: as, b :: bs => JsonValue.beq a b && jsonListBeq as bs
  | _, _ => false

/-- Entrywise equality of JSON objects. -/
def jsonFieldsBeq : List (String × JsonValue) → List (String × JsonValue) → Bool
  | [], [] => true
  | (k, v) :: as, (l, w) :: bs => k == l && JsonValue.beq v w && jsonFieldsBeq as bs
  | _, _ => false

end

mutual

theorem JsonValue.beq_refl : (v : JsonValue) → JsonValue.beq v v = true
  | .null => rfl
  | .bool b => by simp [JsonValue.beq]
  | .num q => by simp [JsonValue.beq]
  | .str s => by simp [JsonValue.beq]
  | .arr xs => by simp [JsonValue.beq, jsonListBeq_refl xs]
  | .obj fs => by simp [JsonValue.beq, jsonFieldsBeq_refl fs]

theorem jsonListBeq_refl : (l : List JsonValue) → jsonListBeq l l = true
  | [] => rfl
  | a :: as => by simp [jsonListBeq, JsonValue.beq_refl a, jsonListBeq_refl as]

theorem jsonFieldsBeq_refl : (l : List (String × JsonValue)) → jsonFieldsBeq l l = true
  | [] => rfl
  | (k, v) :: as => by simp [jsonFieldsBeq, JsonValue.beq_refl v, jsonFieldsBeq_refl as]

end

/-- Equality test on optional JSON values (keys of the metadata store;
`payload.get('device_id')` is `None` when the field is absent). -/
def jsonOptBeq : Option JsonValue → Option JsonValue → Bool
  | none, none => true
  | some a, some b => JsonValue.beq a b
  | _, _ => false

theorem jsonOptBeq_refl (o : Option JsonValue) : jsonOptBeq o o = true := by
  cases o with
  | none => rfl
  | some v => simpa [jsonOptBeq] using JsonValue.beq_refl v

/-- Numeric value of a list of decimal digit characters. -/
def digitsToNat (cs : List Char) : Nat :=
  cs.foldl (fun acc c => acc * 10 + (c.toNat - 48)) 0

/-- True when `cs` is a nonempty run of decimal digits. -/
def allDigits (cs : List Char) : Bool :=
  !cs.isEmpty && cs.all Char.isDigit

/-- Exponent part of a Python float literal: optional sign then digits. -/
def parseExp? : List Char → Option Int
  | '+' :: rest => if allDigits rest then some (digitsToNat rest : Int) else none
  | '-' :: rest => if allDigits rest then some (-(digitsToNat rest : Int)) else none
  | rest => if allDigits rest then some (digitsToNat rest : Int) else none

/-- Mantissa of a Python float literal: digits with an optional fractional
part; at least one digit must be present. Returns the value and the unread
remainder of the input. -/
def parseMantissa? (cs : List Char) : Option (Rat × List Char) :=
  let ip := cs.takeWhile Char.isDigit
  let rest := cs.dropWhile Char.isDigit
  match rest with
  | '.' :: rest2 =>
    let fp := rest2.takeWhile Char.isDigit
    let rest3 := rest2.dropWhile Char.isDigit
    if ip.isEmpty && fp.isEmpty then none
    else some ((digitsToNat ip : Rat) + (digitsToNat fp : Rat) / ((10 : Rat) ^ fp.length), rest3)
  | _ => if ip.isEmpty then none else some ((digitsToNat ip : Rat), rest)

/-- Models CPython `float(s)` on a string: optional surrounding whitespace,
optional sign, decimal mantissa, optional exponent. (The `inf`/`nan`
spellings and underscore digit separators are not modelled; no claim
involves them.) Returns `none` when `float` would raise `ValueError`. -/
def pyParseFloat? (s : String) : Option Rat :=
  let cs := ((s.data.dropWhile Char.isWhitespace).reverse.dropWhile Char.isWhitespace).reverse
  let signed : Rat × List Char :=
    match cs with
    | '+' :: rest => (1, rest)
    | '-' :: rest => (-1, rest)
    | _ => (1, cs)
  match parseMantissa? signed.2 with
  | none => none
  | some (m, rest) =>
    match rest with
    | [] => some (signed.1 * m)
    | c :: rest2 =>
      if c = 'e' ∨ c = 'E' then
        match parseExp? rest2 with
        | some e => some (signed.1 * m * (10 : Rat) ^ e)
        | none => none
      else none

/-- Models Python `float(value)` (source lines 121 and 130) applied to a
JSON-decoded value: numbers are returned as-is, booleans become 0/1,
strings are parsed as float literals; `None`, lists and dicts raise
`TypeError`. Returns `none` when `float` would raise. -/
def pyFloat? : JsonValue → Option Rat
  | .num q => some q
  | .bool b => some (if b then 1 else 0)
  | .str s => pyParseFloat? s
  | .null => none
  | .arr _ => none
  | .obj _ => none

/-- The Python exceptions that can arise on the message path. All of them
subclass `Exception`, so every one is caught by a bare `except Exception`. -/
inductive PyErr where
  | jsonDecodeError
  | attributeError
  | valueError
  | influxWriteError
  | mongoWriteError
deriving DecidableEq

/-- An InfluxDB point as built at source lines 118-123 and 127-132:
`Point(measurement).tag("device_id", device_id).tag(tagKey, metric)
.field("value", float(value)).time(timestamp, WritePrecision.NS)`.
The `device_id` and `time` fields carry the raw values of
`payload.get('device_id')` / `payload.get('timestamp')` (`none` = absent). -/
structure TSPoint where
  measurement : String
  device_id : Option JsonValue
  tagKey : String
  metric : String
  value : Rat
  time : Option JsonValue

/-- The MongoDB metadata document built at source lines 152-158. `last_seen`
and `updated_at` are the ingestion-time clock (`datetime.utcnow()`),
modelled as a `Nat` tick, not the message timestamp. -/
structure MetaRecord where
  device_id : Option JsonValue
  last_seen : Nat
  last_payload : JsonValue
  status : JsonValue
  updated_at : Nat

/-- Which `except` handler logged an error (`logger.error` call sites):
inside `store_timeseries_data` (line 144), inside `update_device_metadata`
(line 169), or in `on_message` itself (lines 77/79). -/
inductive ErrSite where
  | influxStore (e : PyErr)
  | mongoUpdate (e : PyErr)
  | messageHandler (e : PyErr)
deriving DecidableEq

/-- True for an error logged by the timeseries-sink handler. -/
def ErrSite.isInflux : ErrSite → Bool
  | .influxStore _ => true
  | _ => false

/-- True for an error logged by the metadata-store handler. -/
def ErrSite.isMongo : ErrSite → Bool
  | .mongoUpdate _ => true
  | _ => false

/-- Observable state of the consumer: the message counter (line 50/68), the
batches accepted by `write_api.write`, the `device_metadata` collection
(documents keyed by their `device_id` value), and the log of errors. -/
structure IngestState where
  message_count : Nat
  influx : List (List TSPoint)
  mongo : List (Option JsonValue × MetaRecord)
  errors : List ErrSite

/-- State at construction: `self.message_count = 0`, empty stores. -/
def initState : IngestState :=
  { message_count := 0, influx := [], mongo := [], errors := [] }

/-- Behaviour of the two external clients: whether `write_api.write`
(line 135) raises and whether `update_one` (line 160) raises. -/
structure SinkBehavior where
  writeFails : Bool
  upsertFails : Bool

/-- Both sinks healthy. -/
def okB : SinkBehavior := ⟨false, false⟩

/-- Models Python `payload.get(key)` on a dict: the value at `key`, or
`none` when absent. -/
def jsonGet (fields : List (String × JsonValue)) (key : String) : Option JsonValue :=
  (fields.find? (fun p => p.1 == key)).map (fun p => p.2)

/-- Models `x.items()` where `x = payload.get(key, {})` (lines 110-111 with
the loops at 117/126): an absent key yields the `{}` default, a dict yields
its entries, anything else raises `AttributeError` at the `.items()` call. -/
def itemsOrRaise : Option JsonValue → Except PyErr (List (String × JsonValue))
  | none => Except.ok []
  | some (JsonValue.obj fs) => Except.ok fs
  | some _ => Except.error PyErr.attributeError

/-- Models one of the point-building loops (lines 117-123 or 126-132): for
each `(name, value)` entry, `float(value)` either raises `ValueError` /
`TypeError` (aborting the loop at that entry) or yields the point's field
value. -/
def buildPoints (meas tagKey : String) (dev time : Option JsonValue) :
    List (String × JsonValue) → Except PyErr (List TSPoint)
  | [] => Except.ok []
  | (name, v) :: rest =>
    match pyFloat? v with
    | none => Except.error PyErr.valueError
    | some x =>
      match buildPoints meas tagKey dev time rest with
      | Except.error e => Except.error e
      | Except.ok ps => Except.ok (⟨meas, dev, tagKey, name, x, time⟩ :: ps)

/-- The sensors half of the batch (lines 110, 117-123). -/
def sensorPart (f : List (String × JsonValue)) : Except PyErr (List TSPoint) :=
  match itemsOrRaise (jsonGet f ("sensors")) with
  | Except.error e => Except.error e
  | Except.ok sensors =>
    buildPoints ("sensor_data") ("sensor_type") (jsonGet f ("device_id")) (jsonGet f ("timestamp")) sensors

/-- The status half of the batch (lines 111, 126-132). -/
def statusPart (f : List (String × JsonValue)) : Except PyErr (List TSPoint) :=
  match itemsOrRaise (jsonGet f ("status")) with
  | Except.error e => Except.error e
  | Except.ok status =>
    buildPoints ("device_status") ("status_type") (jsonGet f ("device_id")) (jsonGet f ("timestamp")) status

/-- The full batch handed to `write_api.write` (lines 113-132), or the
first exception raised while building it. Evaluation order matches the
source: the sensors loop runs to completion before `status.items()`. -/
def payloadPoints (f : List (String × JsonValue)) : Except PyErr (List TSPoint) :=
  match sensorPart f with
  | Except.error e => Except.error e
  | Except.ok sp =>
    match statusPart f with
    | Except.error e => Except.error e
    | Except.ok tp => Except.ok (sp ++ tp)

/-- `store_timeseries_data` (lines 105-144). The whole body sits in one
`try/except Exception` that only logs, so a coercion failure anywhere, or
a failing `write_api.write`, leaves the sink state unchanged and appends
one error-log entry; on success the whole batch is appended by a single
write call. -/
def store_timeseries_data (beh : SinkBehavior) (f : List (String × JsonValue))
    (st : IngestState) : IngestState :=
  match payloadPoints f with
  | Except.error e => { st with errors := st.errors ++ [ErrSite.influxStore e] }
  | Except.ok points =>
    if beh.writeFails then
      { st with errors := st.errors ++ [ErrSite.influxStore PyErr.influxWriteError] }
    else
      { st with influx := st.influx ++ [points] }

/-- The metadata document of lines 152-158, with both `datetime.utcnow()`
calls modelled by the clock parameter `now`. -/
def mkMeta (f : List (String × JsonValue)) (now : Nat) : MetaRecord :=
  { device_id := jsonGet f ("device_id")
    last_seen := now
    last_payload := JsonValue.obj f
    status := (jsonGet f ("status")).getD (JsonValue.obj [])
    updated_at := now }

/-- Models `update_one({'device_id': key}, {'$set': rec}, upsert=True)`
(lines 160-164): replace the first document whose `device_id` equals `key`,
or insert a new document when none matches. -/
def mongoUpsert (store : List (Option JsonValue × MetaRecord)) (key : Option JsonValue)
    (rec : MetaRecord) : List (Option JsonValue × MetaRecord) :=
  match store with
  | [] => [(key, rec)]
  | (k, r) :: rest =>
    if jsonOptBeq k key then (k, rec) :: rest
    else (k, r) :: mongoUpsert rest key rec

/-- `find_one({'device_id': key})`-style read of the metadata store. -/
def mongoLookup (store : List (Option JsonValue × MetaRecord)) (key : Option JsonValue) :
    Option MetaRecord :=
  match store with
  | [] => none
  | (k, r) :: rest => if jsonOptBeq k key then some r else mongoLookup rest key

/-- `update_device_metadata` (lines 146-169): one upsert keyed by
`payload.get('device_id')`; the catch-all `except` turns a failing
`update_one` into a logged error. -/
def update_device_metadata (beh : SinkBehavior) (f : List (String × JsonValue))
    (now : Nat) (st : IngestState) : IngestState :=
  if beh.upsertFails then
    { st with errors := st.errors ++ [ErrSite.mongoUpdate PyErr.mongoWriteError] }
  else
    { st with mongo := mongoUpsert st.mongo (jsonGet f ("device_id")) (mkMeta f now) }

/-- `process_message_sync` (lines 93-103): timeseries write, then metadata
update. Its own `try/except` is unreachable for these two calls because
each callee catches every exception internally. -/
def process_message_sync (beh : SinkBehavior) (f : List (String × JsonValue))
    (now : Nat) (st : IngestState) : IngestState :=
  update_device_metadata beh f now (store_timeseries_data beh f st)

/-- How `on_message` returned: via the end of its `try` block, via the
`except json.JSONDecodeError` handler (line 76), or via the
`except Exception` handler (line 78). -/
inductive HandlerOutcome where
  | processed
  | jsonDecodeError
  | exceptionCaught
deriving DecidableEq

/-- The `try` block of `on_message` (lines 67-74). `parsed` is the result
of `json.loads(msg.payload.decode())` (`none` = the parser raised). The
counter increment (line 68) precedes the parse (line 69); the log call at
line 71 invokes `payload.get`, which raises `AttributeError` whenever the
parsed payload is not a dict. An error is returned together with the state
at the moment it was raised. -/
def on_message_body (beh : SinkBehavior) (parsed : Option JsonValue) (now : Nat)
    (st : IngestState) : Except (PyErr × IngestState) IngestState :=
  let st1 := { st with message_count := st.message_count + 1 }
  match parsed with
  | none => Except.error (PyErr.jsonDecodeError, st1)
  | some (JsonValue.obj f) => Except.ok (process_message_sync beh f now st1)
  | some _ => Except.error (PyErr.attributeError, st1)

/-- `on_message` (lines 65-79): the `try` body followed by the two `except`
clauses. The result type still allows an escaping exception (`.error`);
the handler clauses are the two catch arms of the source. -/
def on_message (beh : SinkBehavior) (parsed : Option JsonValue) (now : Nat)
    (st : IngestState) : Except (PyErr × IngestState) (IngestState × HandlerOutcome) :=
  match on_message_body beh parsed now st with
  | Except.ok st2 => Except.ok (st2, HandlerOutcome.processed)
  | Except.error (PyErr.jsonDecodeError, st2) =>
    Except.ok ({ st2 with errors := st2.errors ++ [ErrSite.messageHandler PyErr.jsonDecodeError] },
               HandlerOutcome.jsonDecodeError)
  | Except.error (e, st2) =>
    Except.ok ({ st2 with errors := st2.errors ++ [ErrSite.messageHandler e] },
               HandlerOutcome.exceptionCaught)

/-- The state after one delivery of `parsed` to `on_message`. -/
def runIngest (beh : SinkBehavior) (parsed : Option JsonValue) (now : Nat)
    (st : IngestState) : IngestState :=
  match on_message beh parsed now st with
  | Except.ok (st2, _) => st2
  | Except.error (_, st2) => st2

/-- Batches appended to the timeseries store by one message. -/
def storeInfluxDelta (beh : SinkBehavior) (f : List (String × JsonValue)) :
    List (List TSPoint) :=
  match payloadPoints f with
  | Except.ok pts => if beh.writeFails then [] else [pts]
  | Except.error _ => []

/-- Error-log entries produced by `store_timeseries_data` for one message. -/
def storeErrDelta (beh : SinkBehavior) (f : List (String × JsonValue)) : List ErrSite :=
  match payloadPoints f with
  | Except.ok _ => if beh.writeFails then [ErrSite.influxStore PyErr.influxWriteError] else []
  | Except.error e => [ErrSite.influxStore e]

/-! ### Helper lemmas -/

theorem mongoLookup_upsert_self (store : List (Option JsonValue × MetaRecord))
    (key : Option JsonValue) (rec : MetaRecord) :
    mongoLookup (mongoUpsert store key rec) key = some rec := by
  induction store with
  | nil => simp [mongoUpsert, mongoLookup, jsonOptBeq_refl]
  | cons p rest ih =>
    obtain ⟨k, r⟩ := p
    by_cases h : jsonOptBeq k key = true
    · simp [mongoUpsert, mongoLookup, h]
    · simp only [mongoUpsert, mongoLookup, h]
      simpa [h] using ih

theorem store_timeseries_spec (beh : SinkBehavior) (f : List (String × JsonValue))
    (st : IngestState) :
    store_timeseries_data beh f st
      = { st with influx := st.influx ++ storeInfluxDelta beh f,
                  errors := st.errors ++ storeErrDelta beh f } := by
  unfold store_timeseries_data storeInfluxDelta storeErrDelta
  cases h : payloadPoints f with
  | error e => simp
  | ok pts => cases hw : beh.writeFails <;> simp

theorem process_sync_spec (beh : SinkBehavior) (f : List (String × JsonValue))
    (now : Nat) (st : IngestState) :
    process_message_sync beh f now st
      = { message_count := st.message_count,
          influx := st.influx ++ storeInfluxDelta beh f,
          mongo := (if beh.upsertFails then st.mongo
                    else mongoUpsert st.mongo (jsonGet f ("device_id")) (mkMeta f now)),
          errors := (st.errors ++ storeErrDelta beh f)
                    ++ (if beh.upsertFails then [ErrSite.mongoUpdate PyErr.mongoWriteError]
                        else []) } := by
  unfold process_message_sync update_device_metadata
  rw [store_timeseries_spec]
  cases hu : beh.upsertFails <;> simp

theorem on_message_obj_spec (beh : SinkBehavior) (f : List (String × JsonValue))
    (now : Nat) (st : IngestState) :
    on_message beh (some (JsonValue.obj f)) now st
      = Except.ok ({ message_count := st.message_count + 1,
                     influx := st.influx ++ storeInfluxDelta beh f,
                     mongo := (if beh.upsertFails then st.mongo
                               else mongoUpsert st.mongo (jsonGet f ("device_id")) (mkMeta f now)),
                     errors := (st.errors ++ storeErrDelta beh f)
                               ++ (if beh.upsertFails then [ErrSite.mongoUpdate PyErr.mongoWriteError]
                                   else []) },
                   HandlerOutcome.processed) := by
  show Except.ok (process_message_sync beh f now { st with message_count := st.message_count + 1 },
                  HandlerOutcome.processed) = _
  rw [process_sync_spec]

theorem runIngest_obj_spec (beh : SinkBehavior) (f : List (String × JsonValue))
    (now : Nat) (st : IngestState) :
    runIngest beh (some (JsonValue.obj f)) now st
      = { message_count := st.message_count + 1,
          influx := st.influx ++ storeInfluxDelta beh f,
          mongo := (if beh.upsertFails then st.mongo
                    else mongoUpsert st.mongo (jsonGet f ("device_id")) (mkMeta f now)),
          errors := (st.errors ++ storeErrDelta beh f)
                    ++ (if beh.upsertFails then [ErrSite.mongoUpdate PyErr.mongoWriteError]
                        else []) } := by
  unfold runIngest
  rw [on_message_obj_spec]

theorem buildPoints_ok_spec (meas tagKey : String) (dev time : Option JsonValue)
    (entries : List (String × JsonValue))
    (h : (entries.all fun p => (pyFloat? p.2).isSome) = true) :
    ∃ pts, buildPoints meas tagKey dev time entries = Except.ok pts
      ∧ pts.length = entries.length
      ∧ pts.map (fun p => (p.metric, some p.value)) = entries.map (fun q => (q.1, pyFloat? q.2))
      ∧ ∀ p ∈ pts, p.measurement = meas ∧ p.tagKey = tagKey ∧ p.device_id = dev ∧ p.time = time := by
  induction entries with
  | nil => exact ⟨[], rfl, rfl, rfl, by simp⟩
  | cons q rest ih =>
    obtain ⟨name, v⟩ := q
    simp only [List.all_cons, Bool.and_eq_true] at h
    obtain ⟨hv, hrest⟩ := h
    obtain ⟨x, hx⟩ := Option.isSome_iff_exists.mp hv
    obtain ⟨pts, hpts, hlen, hmap, hall⟩ := ih hrest
    refine ⟨⟨meas, dev, tagKey, name, x, time⟩ :: pts, ?_, ?_, ?_, ?_⟩
    · simp only [buildPoints, hx, hpts]
    · simp [hlen]
    · simp only [List.map_cons, hmap, hx]
    · intro p hp
      rcases List.mem_cons.mp hp with h1 | h2
      · subst h1; exact ⟨rfl, rfl, rfl, rfl⟩
      · exact hall p h2

theorem buildPoints_error_of_mem (meas tagKey : String) (dev time : Option JsonValue)
    (entries : List (String × JsonValue)) (name : String) (v : JsonValue)
    (hmem : (name, v) ∈ entries) (hbad : pyFloat? v = none) :
    ∃ e, buildPoints meas tagKey dev time entries = Except.error e := by
  induction entries with
  | nil => cases hmem
  | cons q rest ih =>
    obtain ⟨n, w⟩ := q
    rcases List.mem_cons.mp hmem with h1 | h2
    · obtain ⟨rfl, rfl⟩ := Prod.mk.injEq .. ▸ And.intro (congrArg Prod.fst h1) (congrArg Prod.snd h1)
      exact ⟨PyErr.valueError, by simp [buildPoints, hbad]⟩
    · cases hw : pyFloat? w with
      | none => exact ⟨PyErr.valueError, by simp [buildPoints, hw]⟩
      | some x =>
        obtain ⟨e, he⟩ := ih h2
        exact ⟨e, by simp [buildPoints, hw, he]⟩

theorem buildPoints_time (meas tagKey : String) (dev time : Option JsonValue)
    (entries : List (String × JsonValue)) (pts : List TSPoint)
    (h : buildPoints meas tagKey dev time entries = Except.ok pts) :
    ∀ p ∈ pts, p.time = time := by
  induction entries generalizing pts with
  | nil =>
    simp only [buildPoints] at h
    cases h
    simp
  | cons q rest ih =>
    obtain ⟨n, w⟩ := q
    simp only [buildPoints] at h
    cases hw : pyFloat? w with
    | none => rw [hw] at h; cases h
    | some x =>
      rw [hw] at h
      cases hrest : buildPoints meas tagKey dev time rest with
      | error e => rw [hrest] at h; cases h
      | ok ps =>
        rw [hrest] at h
        cases h
        intro p hp
        rcases List.mem_cons.mp hp with h1 | h2
        · subst h1; rfl
        · exact ih ps hrest p h2

theorem storeErrDelta_flag (wf a b : Bool) (f : List (String × JsonValue)) :
    storeErrDelta ⟨wf, a⟩ f = storeErrDelta ⟨wf, b⟩ f := rfl

theorem storeInfluxDelta_flag (wf a b : Bool) (f : List (String × JsonValue)) :
    storeInfluxDelta ⟨wf, a⟩ f = storeInfluxDelta ⟨wf, b⟩ f := rfl

theorem storeErrDelta_filter_mongo (beh : SinkBehavior) (f : List (String × JsonValue)) :
    (storeErrDelta beh f).filter ErrSite.isMongo = [] := by
  unfold storeErrDelta
  cases payloadPoints f <;> cases hw : beh.writeFails <;> simp [ErrSite.isMongo]

/-! ### Claims -/

/-- Claim C1: sink dispatch is independent. For every decoded payload, the
metadata-store outcome (both the stored documents and the mongo-side error
log) does not depend on whether the timeseries write fails, and the
timeseries outcome (batches and influx-side error log) does not depend on
whether the metadata upsert fails; each failure is logged only by its own
sink's handler. -/
theorem c1_sink_dispatch_independent (f : List (String × JsonValue)) (now : Nat)
    (st : IngestState) (wf uf : Bool) :
    (process_message_sync ⟨wf, uf⟩ f now st).mongo
        = (process_message_sync ⟨false, uf⟩ f now st).mongo
  ∧ (process_message_sync ⟨wf, uf⟩ f now st).influx
        = (process_message_sync ⟨wf, false⟩ f now st).influx
  ∧ (process_message_sync ⟨wf, uf⟩ f now st).errors.filter ErrSite.isMongo
        = (process_message_sync ⟨false, uf⟩ f now st).errors.filter ErrSite.isMongo
  ∧ (process_message_sync ⟨wf, uf⟩ f now st).errors.filter ErrSite.isInflux
        = (process_message_sync ⟨wf, false⟩ f now st).errors.filter ErrSite.isInflux := by
  refine ⟨?_, ?_, ?_, ?_⟩
  · simp only [process_sync_spec]
  · simp only [process_sync_spec]
    rw [storeInfluxDelta_flag wf uf false]
  · simp only [process_sync_spec, List.filter_append]
    rw [storeErrDelta_filter_mongo, storeErrDelta_filter_mongo]
  · simp only [process_sync_spec, List.filter_append]
    rw [storeErrDelta_flag wf uf false]
    cases uf <;> simp [ErrSite.isInflux]

/-- Claim C2: for every parse result of the raw payload and every sink
behaviour, `on_message` returns normally — the two `except` clauses cover
every exception its body can raise, so nothing propagates to the MQTT
delivery callback. -/
theorem c2_handler_never_raises (beh : SinkBehavior) (parsed : Option JsonValue)
    (now : Nat) (st : IngestState) :
    ∃ st2 oc, on_message beh parsed now st = Except.ok (st2, oc) := by
  unfold on_message
  cases h : on_message_body beh parsed now st with
  | ok st2 => exact ⟨st2, HandlerOutcome.processed, rfl⟩
  | error p =>
    obtain ⟨e, st2⟩ := p
    cases e <;> exact ⟨_, _, rfl⟩

/-- Claim C3: a payload that is not parseable as a JSON object (either
`json.loads` raises, or it yields a non-dict) is rejected: an error is
logged by one of the `except` handlers, `process_message_sync` is never
reached, and neither the timeseries sink nor the metadata store changes. -/
theorem c3_unparseable_no_sink (beh : SinkBehavior) (parsed : Option JsonValue)
    (now : Nat) (st : IngestState)
    (h : ∀ f, parsed ≠ some (JsonValue.obj f)) :
    ∃ e oc, oc ≠ HandlerOutcome.processed
      ∧ on_message beh parsed now st
          = Except.ok ({ st with
                          message_count := st.message_count + 1,
                          errors := st.errors ++ [ErrSite.messageHandler e] }, oc) := by
  cases parsed with
  | none =>
    exact ⟨PyErr.jsonDecodeError, HandlerOutcome.jsonDecodeError, by decide, rfl⟩
  | some v =>
    cases v with
    | obj f => exact absurd rfl (h f)
    | null => exact ⟨PyErr.attributeError, HandlerOutcome.exceptionCaught, by decide, rfl⟩
    | bool b => exact ⟨PyErr.attributeError, HandlerOutcome.exceptionCaught, by decide, rfl⟩
    | num q => exact ⟨PyErr.attributeError, HandlerOutcome.exceptionCaught, by decide, rfl⟩
    | str s => exact ⟨PyErr.attributeError, HandlerOutcome.exceptionCaught, by decide, rfl⟩
    | arr xs => exact ⟨PyErr.attributeError, HandlerOutcome.exceptionCaught, by decide, rfl⟩

/-- Witness for C3 at a concrete unparseable payload. -/
theorem c3_witness :
    ∃ e oc, oc ≠ HandlerOutcome.processed
      ∧ on_message okB none 0 initState
          = Except.ok ({ initState with
                          message_count := initState.message_count + 1,
                          errors := initState.errors ++ [ErrSite.messageHandler e] }, oc) :=
  c3_unparseable_no_sink okB none 0 initState (fun f h => Option.noConfusion h)

/-- Payload for C4: well-formed JSON object, `device_id` absent. -/
def c4payload : List (String × JsonValue) :=
  [(("timestamp"), JsonValue.str ("2024-01-01T00:00:00Z")),
   (("sensors"), JsonValue.obj [(("temperature"), JsonValue.num 21)])]

/-- Claim C4 counterexample: the source never checks `device_id`.
`payload.get('device_id')` is `None` for this payload, yet the timeseries
batch is written (with a `None` device tag) and the metadata document is
upserted under the key `None` — not zero sink calls as claimed. -/
theorem c4_counterexample :
    (runIngest okB (some (JsonValue.obj c4payload)) 5 initState).influx
        = [[{ measurement := ("sensor_data"), device_id := none, tagKey := ("sensor_type"),
              metric := ("temperature"), value := 21,
              time := some (JsonValue.str ("2024-01-01T00:00:00Z")) }]]
  ∧ (runIngest okB (some (JsonValue.obj c4payload)) 5 initState).mongo
        = [(none, { device_id := none, last_seen := 5, last_payload := JsonValue.obj c4payload,
                    status := JsonValue.obj [], updated_at := 5 })]
  ∧ (runIngest okB (some (JsonValue.obj c4payload)) 5 initState).influx ≠ []
  ∧ (runIngest okB (some (JsonValue.obj c4payload)) 5 initState).mongo ≠ [] :=
  ⟨rfl, rfl, List.cons_ne_nil _ _, List.cons_ne_nil _ _⟩

/-- Claim C4 (amended): a well-formed payload whose `device_id` is absent
or empty is NOT rejected — the message is processed normally, the
timeseries write is attempted with the missing/empty id as the device tag,
and the metadata upsert is performed under that id as key. -/
theorem c4_amended_no_reject (f : List (String × JsonValue)) (now : Nat) (st : IngestState)
    (h : jsonGet f ("device_id") = none ∨ jsonGet f ("device_id") = some (JsonValue.str (""))) :
    on_message okB (some (JsonValue.obj f)) now st
      = Except.ok ({ message_count := st.message_count + 1,
                     influx := st.influx ++ storeInfluxDelta okB f,
                     mongo := mongoUpsert st.mongo (jsonGet f ("device_id")) (mkMeta f now),
                     errors := st.errors ++ storeErrDelta okB f },
                   HandlerOutcome.processed) := by
  rw [on_message_obj_spec]
  simp [okB]

/-- Witness for the amended C4 at the concrete `device_id`-less payload. -/
theorem c4_amended_witness :
    on_message okB (some (JsonValue.obj c4payload)) 5 initState
      = Except.ok ({ message_count := 1,
                     influx := [] ++ storeInfluxDelta okB c4payload,
                     mongo := mongoUpsert [] (jsonGet c4payload ("device_id")) (mkMeta c4payload 5),
                     errors := [] ++ storeErrDelta okB c4payload },
                   HandlerOutcome.processed) :=
  c4_amended_no_reject c4payload 5 initState (Or.inl rfl)

/-- The value 21.5 from the spec's C5 example. -/
def v215 : Rat := 21.5

/-- Payload for C5 (the spec's §8 example): `humidity` is not numeric. -/
def c5payload : List (String × JsonValue) :=
  [(("device_id"), JsonValue.str ("d1")),
   (("timestamp"), JsonValue.str ("2024-01-01T00:00:00Z")),
   (("sensors"), JsonValue.obj [(("temperature"), JsonValue.num v215),
                                (("humidity"), JsonValue.str ("bad"))])]

/-- Claim C5 counterexample: with sensors `{temperature: 21.5, humidity:
"bad"}` the source does NOT drop only `humidity` — `float("bad")` raises
inside the single `try` of `store_timeseries_data`, so `write_api.write`
is never called and the `temperature` point is not written either (the
influx state stays empty and one timeseries error is logged). The
metadata upsert still happens. -/
theorem c5_counterexample :
    (runIngest okB (some (JsonValue.obj c5payload)) 5 initState).influx = []
  ∧ (runIngest okB (some (JsonValue.obj c5payload)) 5 initState).errors
      = [ErrSite.influxStore PyErr.valueError]
  ∧ (runIngest okB (some (JsonValue.obj c5payload)) 5 initState).mongo
      = [(some (JsonValue.str ("d1")), mkMeta c5payload 5)] :=
  ⟨rfl, rfl, rfl⟩

/-- Claim C5 (amended): a numeric-coercion failure on any entry of
`sensors` OR of `status` aborts the ENTIRE timeseries write for that
message — no point of the message is written and the error is logged by
the timeseries handler — while the metadata upsert still proceeds and the
handler returns normally. -/
theorem c5_amended_whole_batch_dropped (f : List (String × JsonValue)) (now : Nat)
    (st : IngestState) (entries : List (String × JsonValue)) (name : String) (v : JsonValue)
    (hs : jsonGet f ("sensors") = some (JsonValue.obj entries)
          ∨ jsonGet f ("status") = some (JsonValue.obj entries))
    (hmem : (name, v) ∈ entries) (hbad : pyFloat? v = none) :
    ∃ e, payloadPoints f = Except.error e
      ∧ on_message okB (some (JsonValue.obj f)) now st
          = Except.ok ({ message_count := st.message_count + 1,
                         influx := st.influx,
                         mongo := mongoUpsert st.mongo (jsonGet f ("device_id")) (mkMeta f now),
                         errors := st.errors ++ [ErrSite.influxStore e] },
                       HandlerOutcome.processed) := by
  have hpp : ∃ e, payloadPoints f = Except.error e := by
    rcases hs with hs | hs
    · obtain ⟨e, he⟩ := buildPoints_error_of_mem ("sensor_data") ("sensor_type")
          (jsonGet f ("device_id")) (jsonGet f ("timestamp")) entries name v hmem hbad
      refine ⟨e, ?_⟩
      unfold payloadPoints sensorPart
      rw [hs]
      simp [itemsOrRaise, he]
    · cases hsp : sensorPart f with
      | error e =>
        refine ⟨e, ?_⟩
        unfold payloadPoints
        rw [hsp]
      | ok sp =>
        obtain ⟨e, he⟩ := buildPoints_error_of_mem ("device_status") ("status_type")
            (jsonGet f ("device_id")) (jsonGet f ("timestamp")) entries name v hmem hbad
        refine ⟨e, ?_⟩
        unfold payloadPoints statusPart
        rw [hsp, hs]
        simp [itemsOrRaise, he]
  obtain ⟨e, hpp⟩ := hpp
  refine ⟨e, hpp, ?_⟩
  rw [on_message_obj_spec]
  simp [okB, storeInfluxDelta, storeErrDelta, hpp]

/-- Payload whose bad numeric value sits in `status` (the `sensors` side of
the amended C5 is already exercised concretely by the C5 counterexample). -/
def c5statusPayload : List (String × JsonValue) :=
  [(("device_id"), JsonValue.str ("d1")),
   (("timestamp"), JsonValue.str ("2024-01-01T00:00:00Z")),
   (("sensors"), JsonValue.obj [(("temperature"), JsonValue.num v215)]),
   (("status"), JsonValue.obj [(("battery"), JsonValue.str ("bad"))])]

/-- Witness for the amended C5 at a concrete payload with a non-numeric
`status` entry. -/
theorem c5_amended_witness :
    ∃ e, payloadPoints c5statusPayload = Except.error e
      ∧ on_message okB (some (JsonValue.obj c5statusPayload)) 5 initState
          = Except.ok ({ message_count := 1,
                         influx := ([] : List (List TSPoint)),
                         mongo := mongoUpsert [] (jsonGet c5statusPayload ("device_id"))
                           (mkMeta c5statusPayload 5),
                         errors := [] ++ [ErrSite.influxStore e] },
                       HandlerOutcome.processed) :=
  c5_amended_whole_batch_dropped c5statusPayload 5 initState
    [(("battery"), JsonValue.str ("bad"))] ("battery") (JsonValue.str ("bad"))
    (Or.inr rfl) (List.mem_cons_self _ _) rfl

theorem payloadPoints_time (f : List (String × JsonValue)) (pts : List TSPoint)
    (h : payloadPoints f = Except.ok pts) :
    ∀ p ∈ pts, p.time = jsonGet f ("timestamp") := by
  unfold payloadPoints at h
  cases hsp : sensorPart f with
  | error e => rw [hsp] at h; cases h
  | ok sp =>
    rw [hsp] at h
    cases hst : statusPart f with
    | error e => rw [hst] at h; cases h
    | ok tp =>
      rw [hst] at h
      cases h
      have hspt : ∀ p ∈ sp, p.time = jsonGet f ("timestamp") := by
        unfold sensorPart at hsp
        cases hi : itemsOrRaise (jsonGet f ("sensors")) with
        | error e => rw [hi] at hsp; cases hsp
        | ok sensors =>
          rw [hi] at hsp
          exact buildPoints_time _ _ _ _ _ _ hsp
      have htpt : ∀ p ∈ tp, p.time = jsonGet f ("timestamp") := by
        unfold statusPart at hst
        cases hi : itemsOrRaise (jsonGet f ("status")) with
        | error e => rw [hi] at hst; cases hst
        | ok status =>
          rw [hi] at hst
          exact buildPoints_time _ _ _ _ _ _ hst
      intro p hp
      rcases List.mem_append.mp hp with h1 | h2
      · exact hspt p h1
      · exact htpt p h2

/-- Payload for C6: well-formed, `timestamp` absent. -/
def c6payload : List (String × JsonValue) :=
  [(("device_id"), JsonValue.str ("d1")),
   (("sensors"), JsonValue.obj [(("temperature"), JsonValue.num 21)])]

/-- Claim C6 counterexample: for a payload with an absent `timestamp` the
source raises no `InvalidTimestamp` and drops nothing — the point is
written with a `None` timestamp, the metadata upsert happens, and no error
is logged. Both sinks are reached, contradicting the claimed rejection. -/
theorem c6_counterexample :
    (runIngest okB (some (JsonValue.obj c6payload)) 5 initState).influx
        = [[{ measurement := ("sensor_data"), device_id := some (JsonValue.str ("d1")),
              tagKey := ("sensor_type"), metric := ("temperature"), value := 21,
              time := none }]]
  ∧ (runIngest okB (some (JsonValue.obj c6payload)) 5 initState).mongo
        = [(some (JsonValue.str ("d1")), mkMeta c6payload 5)]
  ∧ (runIngest okB (some (JsonValue.obj c6payload)) 5 initState).errors = [] :=
  ⟨rfl, rfl, rfl⟩

/-- Claim C6 (amended): there is no timestamp validation — a payload whose
`timestamp` is absent is still processed end to end: the batch (every
point of it carrying a `None` timestamp, to be filled in server-side) is
handed to the timeseries sink and the metadata upsert occurs. An invalid
timestamp can at most make the write call itself raise, which the
timeseries handler catches; it never prevents the metadata upsert
(`update_device_metadata` ignores `timestamp` entirely). -/
theorem c6_amended_absent_timestamp_processed (f : List (String × JsonValue)) (now : Nat)
    (st : IngestState) (h : jsonGet f ("timestamp") = none) :
    on_message okB (some (JsonValue.obj f)) now st
      = Except.ok ({ message_count := st.message_count + 1,
                     influx := st.influx ++ storeInfluxDelta okB f,
                     mongo := mongoUpsert st.mongo (jsonGet f ("device_id")) (mkMeta f now),
                     errors := st.errors ++ storeErrDelta okB f },
                   HandlerOutcome.processed)
  ∧ ∀ pts, payloadPoints f = Except.ok pts → ∀ p ∈ pts, p.time = none := by
  constructor
  · rw [on_message_obj_spec]
    simp [okB]
  · intro pts hpts p hp
    rw [← h]
    exact payloadPoints_time f pts hpts p hp

/-- Witness for the amended C6 at the concrete timestamp-less payload. -/
theorem c6_amended_witness :
    (on_message okB (some (JsonValue.obj c6payload)) 5 initState
      = Except.ok ({ message_count := 1,
                     influx := [] ++ storeInfluxDelta okB c6payload,
                     mongo := mongoUpsert [] (jsonGet c6payload ("device_id")) (mkMeta c6payload 5),
                     errors := [] ++ storeErrDelta okB c6payload },
                   HandlerOutcome.processed))
  ∧ ∀ pts, payloadPoints c6payload = Except.ok pts → ∀ p ∈ pts, p.time = none :=
  c6_amended_absent_timestamp_processed c6payload 5 initState rfl

/-- Claim C7: for a well-formed payload with N sensors entries and M status
entries, all numerically coercible, exactly N+M points are derived — the
sensors points under measurement `sensor_data`, the status points under
`device_status`, one per (metric, value) pair — and all of them go to the
sink in one batch write call. -/
theorem c7_points_one_batch (f : List (String × JsonValue)) (st : IngestState)
    (sensors status : List (String × JsonValue))
    (hs : jsonGet f ("sensors") = some (JsonValue.obj sensors))
    (ht : jsonGet f ("status") = some (JsonValue.obj status))
    (hall : (sensors.all fun p => (pyFloat? p.2).isSome) = true)
    (hall2 : (status.all fun p => (pyFloat? p.2).isSome) = true) :
    ∃ sp tp,
      payloadPoints f = Except.ok (sp ++ tp)
      ∧ (sp ++ tp).length = sensors.length + status.length
      ∧ sp.map (fun p => (p.metric, some p.value)) = sensors.map (fun q => (q.1, pyFloat? q.2))
      ∧ tp.map (fun p => (p.metric, some p.value)) = status.map (fun q => (q.1, pyFloat? q.2))
      ∧ (∀ p ∈ sp, p.measurement = ("sensor_data") ∧ p.device_id = jsonGet f ("device_id"))
      ∧ (∀ p ∈ tp, p.measurement = ("device_status") ∧ p.device_id = jsonGet f ("device_id"))
      ∧ store_timeseries_data okB f st = { st with influx := st.influx ++ [sp ++ tp] } := by
  obtain ⟨sp, hsp, hlen1, hmap1, hprops1⟩ := buildPoints_ok_spec ("sensor_data") ("sensor_type")
      (jsonGet f ("device_id")) (jsonGet f ("timestamp")) sensors hall
  obtain ⟨tp, htp, hlen2, hmap2, hprops2⟩ := buildPoints_ok_spec ("device_status") ("status_type")
      (jsonGet f ("device_id")) (jsonGet f ("timestamp")) status hall2
  have hsens : sensorPart f = Except.ok sp := by
    unfold sensorPart
    rw [hs]
    simpa [itemsOrRaise] using hsp
  have hstat : statusPart f = Except.ok tp := by
    unfold statusPart
    rw [ht]
    simpa [itemsOrRaise] using htp
  have hpp : payloadPoints f = Except.ok (sp ++ tp) := by
    unfold payloadPoints
    rw [hsens, hstat]
  refine ⟨sp, tp, hpp, ?_, hmap1, hmap2, ?_, ?_, ?_⟩
  · simp [hlen1, hlen2]
  · intro p hp
    exact ⟨(hprops1 p hp).1, (hprops1 p hp).2.2.1⟩
  · intro p hp
    exact ⟨(hprops2 p hp).1, (hprops2 p hp).2.2.1⟩
  · rw [store_timeseries_spec]
    simp [storeInfluxDelta, storeErrDelta, hpp, okB]

/-- Payload with two sensors entries and one status entry for the C7
witness. -/
def c7payload : List (String × JsonValue) :=
  [(("device_id"), JsonValue.str ("d1")),
   (("timestamp"), JsonValue.str ("2024-01-01T00:00:00Z")),
   (("sensors"), JsonValue.obj [(("temperature"), JsonValue.num 22),
                                (("humidity"), JsonValue.num 55)]),
   (("status"), JsonValue.obj [(("battery"), JsonValue.num 80)])]

/-- Witness for C7 at a concrete 2-sensor, 1-status payload. -/
theorem c7_witness :
    ∃ sp tp,
      payloadPoints c7payload = Except.ok (sp ++ tp)
      ∧ (sp ++ tp).length
          = [(("temperature"), JsonValue.num 22), (("humidity"), JsonValue.num 55)].length
            + [(("battery"), JsonValue.num 80)].length
      ∧ sp.map (fun p => (p.metric, some p.value))
          = [(("temperature"), JsonValue.num 22),
             (("humidity"), JsonValue.num 55)].map (fun q => (q.1, pyFloat? q.2))
      ∧ tp.map (fun p => (p.metric, some p.value))
          = [(("battery"), JsonValue.num 80)].map (fun q => (q.1, pyFloat? q.2))
      ∧ (∀ p ∈ sp, p.measurement = ("sensor_data")
            ∧ p.device_id = jsonGet c7payload ("device_id"))
      ∧ (∀ p ∈ tp, p.measurement = ("device_status")
            ∧ p.device_id = jsonGet c7payload ("device_id"))
      ∧ store_timeseries_data okB c7payload initState
          = { initState with influx := initState.influx ++ [sp ++ tp] } :=
  c7_points_one_batch c7payload initState
    [(("temperature"), JsonValue.num 22), (("humidity"), JsonValue.num 55)]
    [(("battery"), JsonValue.num 80)] rfl rfl rfl rfl

/-- The spec's §8 end-to-end example payload. -/
def c8payload : List (String × JsonValue) :=
  [(("device_id"), JsonValue.str ("d1")),
   (("timestamp"), JsonValue.str ("2024-01-01T00:00:00Z")),
   (("sensors"), JsonValue.obj [(("temperature"), JsonValue.num 22)]),
   (("status"), JsonValue.obj [(("battery"), JsonValue.num 80)])]

/-- Claim C8: every processed payload causes exactly one metadata upsert,
keyed by `payload.get('device_id')`, whose document holds `device_id`, the
ingestion-clock `last_seen` and `updated_at` (`now`, not the message
timestamp), `last_payload` equal to the full decoded payload, and `status`
equal to the message's status map; and the spec's example payload yields
exactly 2 points and 1 upsert whose `last_payload` is the decoded input. -/
theorem c8_metadata_upsert (f : List (String × JsonValue)) (now : Nat) (st : IngestState) :
    (runIngest okB (some (JsonValue.obj f)) now st).mongo
        = mongoUpsert st.mongo (jsonGet f ("device_id"))
            { device_id := jsonGet f ("device_id"), last_seen := now,
              last_payload := JsonValue.obj f,
              status := (jsonGet f ("status")).getD (JsonValue.obj []),
              updated_at := now }
  ∧ (runIngest okB (some (JsonValue.obj c8payload)) 7 initState).influx
        = [[{ measurement := ("sensor_data"), device_id := some (JsonValue.str ("d1")),
              tagKey := ("sensor_type"), metric := ("temperature"), value := 22,
              time := some (JsonValue.str ("2024-01-01T00:00:00Z")) },
            { measurement := ("device_status"), device_id := some (JsonValue.str ("d1")),
              tagKey := ("status_type"), metric := ("battery"), value := 80,
              time := some (JsonValue.str ("2024-01-01T00:00:00Z")) }]]
  ∧ (runIngest okB (some (JsonValue.obj c8payload)) 7 initState).mongo
        = [(some (JsonValue.str ("d1")),
            { device_id := some (JsonValue.str ("d1")), last_seen := 7,
              last_payload := JsonValue.obj c8payload,
              status := JsonValue.obj [(("battery"), JsonValue.num 80)],
              updated_at := 7 })] := by
  refine ⟨?_, rfl, rfl⟩
  rw [runIngest_obj_spec]
  simp [okB, mkMeta]

/-- Claim C9: ingesting the identical payload twice is not an error and is
last-write-wins: the metadata record readable for the payload's device key
after the duplicate ingest is the same record a single ingest produces
(the second clock value), and the duplicate batch is simply appended again
by the timeseries sink with the same (possibly empty) error log delta —
never rejected. -/
theorem c9_duplicate_delivery_lww (f : List (String × JsonValue)) (now1 now2 : Nat)
    (st : IngestState) :
    mongoLookup (runIngest okB (some (JsonValue.obj f)) now2
        (runIngest okB (some (JsonValue.obj f)) now1 st)).mongo (jsonGet f ("device_id"))
        = mongoLookup (runIngest okB (some (JsonValue.obj f)) now2 st).mongo
            (jsonGet f ("device_id"))
  ∧ mongoLookup (runIngest okB (some (JsonValue.obj f)) now2 st).mongo (jsonGet f ("device_id"))
        = some (mkMeta f now2)
  ∧ (runIngest okB (some (JsonValue.obj f)) now2
        (runIngest okB (some (JsonValue.obj f)) now1 st)).influx
        = st.influx ++ storeInfluxDelta okB f ++ storeInfluxDelta okB f
  ∧ (runIngest okB (some (JsonValue.obj f)) now2
        (runIngest okB (some (JsonValue.obj f)) now1 st)).errors
        = st.errors ++ storeErrDelta okB f ++ storeErrDelta okB f := by
  simp only [runIngest_obj_spec]
  refine ⟨?_, ?_, ?_, ?_⟩
  · simp [okB, mongoLookup_upsert_self]
  · simp [okB, mongoLookup_upsert_self]
  · simp [okB]
  · simp [okB]

/-- Payload with neither a `sensors` nor a `status` key. -/
def c10payload : List (String × JsonValue) :=
  [(("device_id"), JsonValue.str ("d7"))]

/-- Claim C10 (implicit): a parseable payload lacking the `sensors` key,
the `status` key, or both is still processed without error — the missing
map defaults to `{}` (contributing zero points), and when both are missing
the sink still receives one empty batch and the metadata upsert still
occurs with `status` defaulting to the empty map. -/
theorem c10_missing_maps_default_empty (f : List (String × JsonValue)) (now : Nat)
    (st : IngestState) :
    (jsonGet f ("sensors") = none → sensorPart f = Except.ok [])
  ∧ (jsonGet f ("status") = none →
       statusPart f = Except.ok [] ∧ (mkMeta f now).status = JsonValue.obj [])
  ∧ (jsonGet f ("sensors") = none → jsonGet f ("status") = none →
       on_message okB (some (JsonValue.obj f)) now st
         = Except.ok ({ message_count := st.message_count + 1,
                        influx := st.influx ++ [[]],
                        mongo := mongoUpsert st.mongo (jsonGet f ("device_id"))
                          { device_id := jsonGet f ("device_id"), last_seen := now,
                            last_payload := JsonValue.obj f, status := JsonValue.obj [],
                            updated_at := now },
                        errors := st.errors }, HandlerOutcome.processed)) := by
  refine ⟨?_, ?_, ?_⟩
  · intro hs
    unfold sensorPart
    rw [hs]
    rfl
  · intro ht
    constructor
    · unfold statusPart
      rw [ht]
      rfl
    · simp [mkMeta, ht]
  · intro hs ht
    have hpp : payloadPoints f = Except.ok [] := by
      unfold payloadPoints sensorPart statusPart
      rw [hs, ht]
      rfl
    rw [on_message_obj_spec]
    simp [okB, storeInfluxDelta, storeErrDelta, hpp, mkMeta, ht]

/-- Witness for C10 at a concrete payload with both maps missing. -/
theorem c10_witness :
    on_message okB (some (JsonValue.obj c10payload)) 3 initState
      = Except.ok ({ message_count := 1,
                     influx := [[]],
                     mongo := mongoUpsert [] (jsonGet c10payload ("device_id"))
                       { device_id := jsonGet c10payload ("device_id"), last_seen := 3,
                         last_payload := JsonValue.obj c10payload, status := JsonValue.obj [],
                         updated_at := 3 },
                     errors := [] }, HandlerOutcome.processed) :=
  (c10_missing_maps_default_empty c10payload 3 initState).2.2 rfl rfl
